import Mathlib

/-!
Shallow embedding of `official/vision/beta/configs/ssd.py` (SSD configuration
definitions and the two experiment-factory registrations).

Python floats are modelled as `ℚ`: every float literal in the file is stored
without further arithmetic, except the learning-rate values, whose only
arithmetic is multiplication and division by the power of two 256 — exact in
binary floating point, hence faithfully mirrored by exact rational arithmetic.
Python non-negative ints are modelled as `ℕ` (Python `//` on non-negative
operands is `Nat` division); the one int list containing `-1` uses `ℤ`.
-/

namespace SSD

/-- Modelled from the spec: external backbone sub-schema
`official.vision.beta.configs.backbones.MobileDet`, referenced by composition;
its own fields are unspecified in the sources available here. -/
structure MobileDet where
  deriving DecidableEq, Repr

/-- Modelled from the spec: external `backbones.Backbone` OneOf sub-schema;
only the discriminator and the `mobiledet` payload used by this file are
modelled. -/
structure Backbone where
  type : Option String := none
  mobiledet : MobileDet := {}
  deriving DecidableEq, Repr

/-- Modelled from the spec: external `decoders.MRFM` sub-schema; only the two
list-valued fields set by this file are modelled. -/
structure MRFM where
  fml_from_layer : List String := []
  fml_layer_depth : List ℤ := []
  deriving DecidableEq, Repr

/-- Modelled from the spec: external `decoders.Decoder` OneOf sub-schema; only
the discriminator and the `mrfm` payload used by this file are modelled. -/
structure Decoder where
  type : Option String := none
  mrfm : MRFM := {}
  deriving DecidableEq, Repr

/-- Modelled from the spec: external `common.NormActivation` sub-schema,
referenced by composition; its fields are unspecified in the sources
available here. -/
structure NormActivation where
  deriving DecidableEq, Repr

/-- `TfExampleDecoder` (ssd.py lines 31-33). -/
structure TfExampleDecoder where
  regenerate_source_id : Bool := false
  deriving DecidableEq, Repr

/-- `TfExampleDecoderLabelMap` (ssd.py lines 36-39). -/
structure TfExampleDecoderLabelMap where
  regenerate_source_id : Bool := false
  label_map : String := ""
  deriving DecidableEq, Repr

/-- `DataDecoder` (ssd.py lines 42-46): a `hyperparams.OneOfConfig` holding a
discriminator string plus one payload instance per variant; both payloads are
non-optional fields, present whatever the discriminator says. -/
structure DataDecoder where
  type : Option String := some "simple_decoder"
  simple_decoder : TfExampleDecoder := {}
  label_map_decoder : TfExampleDecoderLabelMap := {}
  deriving DecidableEq, Repr

/-- Keyword-style partial construction `DataDecoder(type=t)`: every field not
named keeps its declared default. -/
def DataDecoder.withType (t : Option String) : DataDecoder := { type := t }

/-- `Parser` (ssd.py lines 49-57). -/
structure Parser where
  match_threshold : ℚ := 0.5
  unmatched_threshold : ℚ := 0.5
  aug_rand_hflip : Bool := false
  aug_scale_min : ℚ := 1.0
  aug_scale_max : ℚ := 1.0
  skip_crowd_during_training : Bool := true
  max_num_instances : ℕ := 100
  deriving DecidableEq, Repr

/-- `DataConfig` (ssd.py lines 60-70); the fields it declares (the external
`cfg.DataConfig` base adds none used by this file). -/
structure DataConfig where
  input_path : String := ""
  global_batch_size : ℕ := 0
  is_training : Bool := false
  dtype : String := "bfloat16"
  decoder : DataDecoder := {}
  parser : Parser := {}
  shuffle_buffer_size : ℕ := 10000
  file_type : String := "tfrecord"
  deriving DecidableEq, Repr

/-- `SSDAnchor` (ssd.py lines 73-81). `aspect_ratios` is declared with
`dataclasses.field(default_factory=lambda: [1.0, 2.0, 3.0, 1.0 / 2, 1.0 / 3])`:
a fresh list per construction, with this default value. -/
structure SSDAnchor where
  min_scale : ℚ := 0.2
  max_scale : ℚ := 0.95
  scales : Option (List ℚ) := none
  aspect_ratios : List ℚ := [1, 2, 3, 1 / 2, 1 / 3]
  interpolated_scale_aspect_ratio : ℚ := 1.0
  anchor_size : ℚ := 4.0
  deriving DecidableEq, Repr

/-- `Losses` (ssd.py lines 84-90). -/
structure Losses where
  focal_loss_alpha : ℚ := 0.25
  focal_loss_gamma : ℚ := 1.5
  huber_loss_delta : ℚ := 0.1
  box_loss_weight : ℕ := 50
  l2_weight_decay : ℚ := 0.0
  deriving DecidableEq, Repr

/-- `SSDHead` (ssd.py lines 93-101). -/
structure SSDHead where
  kernel_size : ℕ := 3
  use_depthwise : Bool := true
  activation : String := "relu6"
  use_sync_bn : Bool := false
  freeze_norm : Bool := false
  add_background_class : Bool := true
  class_prediction_bias_init : ℚ := -4.6
  deriving DecidableEq, Repr

/-- `DetectionGenerator` (ssd.py lines 104-110). -/
structure DetectionGenerator where
  pre_nms_top_k : ℕ := 5000
  pre_nms_score_threshold : ℚ := 0.05
  nms_iou_threshold : ℚ := 0.5
  max_num_detections : ℕ := 100
  use_batched_nms : Bool := false
  deriving DecidableEq, Repr

/-- `SSDModel` (ssd.py lines 113-129). `input_size` is declared with
`dataclasses.field(default_factory=list)`: a fresh empty list per
construction. -/
structure SSDModel where
  num_classes : ℕ := 0
  input_size : List ℕ := []
  min_level : ℕ := 4
  num_layers : ℕ := 6
  anchor : SSDAnchor := {}
  backbone : Backbone := { type := some "mobiledet", mobiledet := {} }
  decoder : Decoder :=
    { type := some "mrfm",
      mrfm := { fml_from_layer := ["4", "5", "", "", "", ""],
                fml_layer_depth := [-1, -1, 512, 256, 256, 128] } }
  head : SSDHead := {}
  detection_generator : DetectionGenerator := {}
  norm_activation : NormActivation := {}
  deriving DecidableEq, Repr

/-- `SSDTask` (ssd.py lines 132-141); the fields it declares (the external
`cfg.TaskConfig` base adds none used by this file). -/
structure SSDTask where
  model : SSDModel := {}
  train_data : DataConfig := { is_training := true }
  validation_data : DataConfig := { is_training := false }
  losses : Losses := {}
  init_checkpoint : Option String := none
  init_checkpoint_modules : String := "all"
  annotation_file : Option String := none
  per_category_metrics : Bool := false
  deriving DecidableEq, Repr

/-- Modelled from the spec: external `cfg.RuntimeConfig`; only the field set
by this file is modelled. -/
structure RuntimeConfig where
  mixed_precision_dtype : Option String := none
  deriving DecidableEq, Repr

/-- Modelled from the spec: the `sgd` payload of the optimizer mapping passed
to the external `optimization.OptimizationConfig` constructor. -/
structure SGDConfig where
  momentum : ℚ := 0
  deriving DecidableEq, Repr

/-- Modelled from the spec: the `optimizer` entry of the optimizer mapping. -/
structure OptimizerChoice where
  type : Option String := none
  sgd : SGDConfig := {}
  deriving DecidableEq, Repr

/-- Modelled from the spec: the `stepwise` learning-rate payload (boundaries
and values of a piecewise-constant schedule). -/
structure StepwiseLr where
  boundaries : List ℕ := []
  values : List ℚ := []
  deriving DecidableEq, Repr

/-- Modelled from the spec: the `learning_rate` entry of the optimizer
mapping. -/
structure LearningRateChoice where
  type : Option String := none
  stepwise : StepwiseLr := {}
  deriving DecidableEq, Repr

/-- Modelled from the spec: the `linear` warmup payload. -/
structure LinearWarmup where
  warmup_steps : ℕ := 0
  warmup_learning_rate : ℚ := 0
  deriving DecidableEq, Repr

/-- Modelled from the spec: the `warmup` entry of the optimizer mapping. -/
structure WarmupChoice where
  type : Option String := none
  linear : LinearWarmup := {}
  deriving DecidableEq, Repr

/-- Modelled from the spec: `optimization.OptimizationConfig`, the typed
mirror of the generic optimizer / learning-rate / warmup keyed mapping. -/
structure OptimizationConfig where
  optimizer : OptimizerChoice := {}
  learning_rate : LearningRateChoice := {}
  warmup : WarmupChoice := {}
  deriving DecidableEq, Repr

/-- Modelled from the spec: external `cfg.TrainerConfig`; only the fields set
by this file are modelled. -/
structure TrainerConfig where
  train_steps : ℕ := 0
  validation_steps : ℕ := 0
  validation_interval : ℕ := 0
  steps_per_loop : ℕ := 0
  summary_interval : ℕ := 0
  checkpoint_interval : ℕ := 0
  optimizer_config : OptimizationConfig := {}
  deriving DecidableEq, Repr

/-- Modelled from the spec: external `cfg.ExperimentConfig`, the experiment
object wrapping runtime, task, trainer and restriction strings. -/
structure ExperimentConfig where
  runtime : RuntimeConfig := {}
  task : SSDTask := {}
  trainer : TrainerConfig := {}
  restrictions : List String := []
  deriving DecidableEq, Repr

/-- Python `os.path.join(a, b)` on POSIX for a non-empty, non-slash-terminated
first component and a relative second component: join with a single slash. -/
def osPathJoin (a b : String) : String := a ++ "/" ++ b

/-- `COCO_INPUT_PATH_BASE = 'coco'` (ssd.py line 155). -/
def COCO_INPUT_PATH_BASE : String := "coco"

/-- `COCO_TRAIN_EXAMPLES = 118287` (ssd.py line 156). -/
def COCO_TRAIN_EXAMPLES : ℕ := 118287

/-- `COCO_VAL_EXAMPLES = 5000` (ssd.py line 157). -/
def COCO_VAL_EXAMPLES : ℕ := 5000

/-- `retinanet()` (ssd.py lines 144-152), registered under key `'ssd'`. -/
def retinanet (_ : Unit) : ExperimentConfig :=
  { task := {},
    restrictions :=
      ["task.train_data.is_training != None",
       "task.validation_data.is_training != None"] }

/-- Local `train_batch_size = 256` of `ssd_mobiledet_coco` (ssd.py line 163),
lifted to the top level so claims can name it. -/
def train_batch_size : ℕ := 256

/-- Local `eval_batch_size = 8` of `ssd_mobiledet_coco` (ssd.py line 164),
lifted to the top level so claims can name it. -/
def eval_batch_size : ℕ := 8

/-- Local `steps_per_epoch = COCO_TRAIN_EXAMPLES // train_batch_size` of
`ssd_mobiledet_coco` (ssd.py line 165), lifted to the top level so claims can
name it. -/
def steps_per_epoch : ℕ := COCO_TRAIN_EXAMPLES / train_batch_size

/-- `ssd_mobiledet_coco()` (ssd.py lines 160-230), registered under key
`'ssd_mobiledet_coco'`. -/
def ssd_mobiledet_coco (_ : Unit) : ExperimentConfig :=
  { runtime := { mixed_precision_dtype := some "bfloat16" },
    task :=
      { init_checkpoint := some
          "gs://cloud-tpu-checkpoints/vision-2.0/resnet50_imagenet/ckpt-28080",
        init_checkpoint_modules := "backbone",
        annotation_file := some
          (osPathJoin COCO_INPUT_PATH_BASE "instances_val2017.json"),
        model :=
          { num_classes := 91,
            input_size := [640, 640, 3],
            min_level := 4,
            num_layers := 6 },
        losses := { l2_weight_decay := 1e-4 },
        train_data :=
          { input_path := osPathJoin COCO_INPUT_PATH_BASE "train*",
            is_training := true,
            global_batch_size := train_batch_size,
            parser :=
              { aug_rand_hflip := true,
                aug_scale_min := 0.5,
                aug_scale_max := 2.0 } },
        validation_data :=
          { input_path := osPathJoin COCO_INPUT_PATH_BASE "val*",
            is_training := false,
            global_batch_size := eval_batch_size } },
    trainer :=
      { train_steps := 72 * steps_per_epoch,
        validation_steps := COCO_VAL_EXAMPLES / eval_batch_size,
        validation_interval := steps_per_epoch,
        steps_per_loop := steps_per_epoch,
        summary_interval := steps_per_epoch,
        checkpoint_interval := steps_per_epoch,
        optimizer_config :=
          { optimizer := { type := some "sgd", sgd := { momentum := 0.9 } },
            learning_rate :=
              { type := some "stepwise",
                stepwise :=
                  { boundaries := [57 * steps_per_epoch, 67 * steps_per_epoch],
                    values :=
                      [0.32 * (train_batch_size : ℚ) / 256.0,
                       0.032 * (train_batch_size : ℚ) / 256.0,
                       0.0032 * (train_batch_size : ℚ) / 256.0] } },
            warmup :=
              { type := some "linear",
                linear :=
                  { warmup_steps := 500,
                    warmup_learning_rate := 0.0067 } } } },
    restrictions :=
      ["task.train_data.is_training != None",
       "task.validation_data.is_training != None"] }

/-- Modelled from the spec: the external experiment registry
(`exp_factory.register_config_factory`), an append-only name-to-factory map;
the two decorators of this file insert these entries in file order. -/
def experimentRegistry : List (String × (Unit → ExperimentConfig)) :=
  [("ssd", retinanet), ("ssd_mobiledet_coco", ssd_mobiledet_coco)]

/-- Modelled from the spec: registry lookup by string key. -/
def registryLookup (k : String) : Option (Unit → ExperimentConfig) :=
  (experimentRegistry.find? (fun p => p.1 == k)).map Prod.snd

/-!
Allocation model. Python lists are mutable heap objects;
`dataclasses.field(default_factory=...)` calls its factory anew on every
construction, so each instance owns a fresh list. The heap below stores the
list payloads; a record's list-valued field is modelled as a reference (a heap
address) into it. Construction threads the heap and allocates in dataclass
field-declaration order. Nested record defaults (`anchor: SSDAnchor =
SSDAnchor()`) are modelled from the spec: `hyperparams.Config` — outside the
sources available here — re-instantiates nested config defaults per
construction, so sibling instances share no mutable state.
-/

/-- A heap value: one Python list payload (rational, natural or string
lists cover every list-valued field of this file). -/
inductive HVal where
  | qlist : List ℚ → HVal
  | nlist : List ℕ → HVal
  | slist : List String → HVal
  deriving DecidableEq, Repr

/-- The heap: a bump allocator over list payloads. -/
structure Heap where
  next : ℕ
  store : ℕ → HVal

/-- Allocate a fresh cell holding `v`; returns its address. -/
def allocH (v : HVal) (h : Heap) : ℕ × Heap :=
  (h.next, ⟨h.next + 1, fun r => if r = h.next then v else h.store r⟩)

/-- Mutate the list stored at address `r` (Python in-place list mutation). -/
def writeH (r : ℕ) (v : HVal) (h : Heap) : Heap :=
  ⟨h.next, fun x => if x = r then v else h.store x⟩

/-- `SSDAnchor` at the allocation level: its one list-valued field
(`aspect_ratios`) as a heap address. -/
structure SSDAnchorH where
  aspect_ratios : ℕ
  deriving DecidableEq, Repr

/-- `SSDModel` at the allocation level: its own list-valued field
(`input_size`) and its nested `anchor` sub-record. -/
structure SSDModelH where
  input_size : ℕ
  anchor : SSDAnchorH
  deriving DecidableEq, Repr

/-- `SSDTask` at the allocation level: the list-valued fields reachable from
it all live in its `model`. -/
structure SSDTaskH where
  model : SSDModelH
  deriving DecidableEq, Repr

/-- `ExperimentConfig` at the allocation level: its task plus the
`restrictions` list. -/
structure ExperimentConfigH where
  task : SSDTaskH
  restrictions : ℕ
  deriving DecidableEq, Repr

/-- Construct `SSDAnchor()`: `default_factory` allocates a fresh
`[1.0, 2.0, 3.0, 1.0 / 2, 1.0 / 3]` (ssd.py lines 78-79). -/
def mkSSDAnchorH (h : Heap) : SSDAnchorH × Heap :=
  let (r, h1) := allocH (.qlist [1, 2, 3, 1 / 2, 1 / 3]) h
  (⟨r⟩, h1)

/-- Construct `SSDModel()` with default (or, for `input_size`, explicitly
given) list fields: `default_factory=list` allocates a fresh list for
`input_size` (ssd.py line 116), then the nested `SSDAnchor` is constructed
(field order: `input_size` precedes `anchor`). -/
def mkSSDModelH (isz : List ℕ) (h : Heap) : SSDModelH × Heap :=
  let (ri, h1) := allocH (.nlist isz) h
  let (a, h2) := mkSSDAnchorH h1
  (⟨ri, a⟩, h2)

/-- Construct `SSDTask()`: its `model` field is a fresh `SSDModel()`. -/
def mkSSDTaskH (h : Heap) : SSDTaskH × Heap :=
  let (m, h1) := mkSSDModelH [] h
  (⟨m⟩, h1)

/-- `retinanet()` at the allocation level: a fresh default `SSDTask` and a
fresh restriction-string list literal (ssd.py lines 147-152). -/
def retinanetH (h : Heap) : ExperimentConfigH × Heap :=
  let (t, h1) := mkSSDTaskH h
  let (r, h2) := allocH
    (.slist ["task.train_data.is_training != None",
             "task.validation_data.is_training != None"]) h1
  (⟨t, r⟩, h2)

/-- `ssd_mobiledet_coco()` at the allocation level: its `SSDModel` gets the
fresh literal `[640, 640, 3]` as `input_size` (ssd.py line 176) and a fresh
restriction-string list literal (ssd.py lines 225-228). -/
def ssd_mobiledet_cocoH (h : Heap) : ExperimentConfigH × Heap :=
  let (m, h1) := mkSSDModelH [640, 640, 3] h
  let (r, h2) := allocH
    (.slist ["task.train_data.is_training != None",
             "task.validation_data.is_training != None"]) h1
  (⟨⟨m⟩, r⟩, h2)

/-- The heap addresses of the list payloads owned by an experiment config. -/
def refsOfExpH (e : ExperimentConfigH) : List ℕ :=
  [e.task.model.input_size, e.task.model.anchor.aspect_ratios, e.restrictions]

/-- The heap addresses of the list payloads owned by an `SSDModel`. -/
def refsOfModelH (m : SSDModelH) : List ℕ :=
  [m.input_size, m.anchor.aspect_ratios]

/-- The heap addresses of the list payloads reachable from an `SSDTask`. -/
def refsOfTaskH (t : SSDTaskH) : List ℕ :=
  refsOfModelH t.model

/-- Two address sets are independent in a heap: they are disjoint, and an
in-place mutation of any list of either set leaves every list of the other
set unchanged. -/
def IndependentIn (rs1 rs2 : List ℕ) (h : Heap) : Prop :=
  rs1.Disjoint rs2 ∧
  (∀ r ∈ rs1, ∀ v : HVal,
    rs2.map ((writeH r v h).store) = rs2.map h.store) ∧
  (∀ r ∈ rs2, ∀ v : HVal,
    rs1.map ((writeH r v h).store) = rs1.map h.store)

/-- A factory is allocation-fresh: two consecutive invocations own disjoint
heap addresses, and in the final heap the list payloads of the first
invocation's result read equal, slot for slot, to those of the second
invocation's result (equivalent objects, no shared mutable instance). -/
def FactoryFresh (f : Heap → ExperimentConfigH × Heap) : Prop :=
  ∀ h : Heap,
    (refsOfExpH (f h).1).Disjoint (refsOfExpH (f (f h).2).1) ∧
    (refsOfExpH (f h).1).map ((f (f h).2).2).store =
      (refsOfExpH (f (f h).2).1).map ((f (f h).2).2).store

/-- The canonical empty heap. -/
def h0 : Heap := ⟨0, fun _ => .qlist []⟩

end SSD

namespace SSD

theorem writeH_store_of_ne (r : ℕ) (v : HVal) (x : ℕ) (h : Heap)
    (hx : x ≠ r) : (writeH r v h).store x = h.store x := by
  simp [writeH, hx]

theorem map_write_store_of_ne (rs : List ℕ) (r : ℕ) (v : HVal) (h : Heap)
    (hd : ∀ x ∈ rs, x ≠ r) :
    rs.map ((writeH r v h).store) = rs.map h.store := by
  induction rs with
  | nil => rfl
  | cons a t ih =>
      simp only [List.map, List.cons.injEq]
      exact ⟨writeH_store_of_ne r v a h (hd a (by simp)),
             ih (fun x hx => hd x (by simp [hx]))⟩

theorem refsOf_retinanetH (h : Heap) :
    refsOfExpH (retinanetH h).1 = [h.next, h.next + 1, h.next + 2] := rfl

theorem next_retinanetH (h : Heap) :
    ((retinanetH h).2).next = h.next + 3 := rfl

theorem store_lo_retinanetH (h : Heap) (r : ℕ) (hr : r < h.next) :
    ((retinanetH h).2).store r = h.store r := by
  show (if r = h.next + 2 then _ else
        if r = h.next + 1 then _ else
        if r = h.next then _ else h.store r) = h.store r
  rw [if_neg (by omega), if_neg (by omega), if_neg (by omega)]

theorem reads_retinanetH (h : Heap) :
    (refsOfExpH (retinanetH h).1).map ((retinanetH h).2).store =
      [.nlist [], .qlist [1, 2, 3, 1 / 2, 1 / 3],
       .slist ["task.train_data.is_training != None",
               "task.validation_data.is_training != None"]] := by
  show [(if h.next = h.next + 2 then _ else
         if h.next = h.next + 1 then _ else
         if h.next = h.next then _ else h.store h.next),
        (if h.next + 1 = h.next + 2 then _ else
         if h.next + 1 = h.next + 1 then _ else _),
        (if h.next + 2 = h.next + 2 then _ else _)] = _
  rw [if_neg (by omega), if_neg (by omega), if_pos rfl,
      if_neg (by omega), if_pos rfl, if_pos rfl]

theorem refsOf_cocoH (h : Heap) :
    refsOfExpH (ssd_mobiledet_cocoH h).1 = [h.next, h.next + 1, h.next + 2] :=
  rfl

theorem next_cocoH (h : Heap) :
    ((ssd_mobiledet_cocoH h).2).next = h.next + 3 := rfl

theorem store_lo_cocoH (h : Heap) (r : ℕ) (hr : r < h.next) :
    ((ssd_mobiledet_cocoH h).2).store r = h.store r := by
  show (if r = h.next + 2 then _ else
        if r = h.next + 1 then _ else
        if r = h.next then _ else h.store r) = h.store r
  rw [if_neg (by omega), if_neg (by omega), if_neg (by omega)]

theorem reads_cocoH (h : Heap) :
    (refsOfExpH (ssd_mobiledet_cocoH h).1).map
        ((ssd_mobiledet_cocoH h).2).store =
      [.nlist [640, 640, 3], .qlist [1, 2, 3, 1 / 2, 1 / 3],
       .slist ["task.train_data.is_training != None",
               "task.validation_data.is_training != None"]] := by
  show [(if h.next = h.next + 2 then _ else
         if h.next = h.next + 1 then _ else
         if h.next = h.next then _ else h.store h.next),
        (if h.next + 1 = h.next + 2 then _ else
         if h.next + 1 = h.next + 1 then _ else _),
        (if h.next + 2 = h.next + 2 then _ else _)] = _
  rw [if_neg (by omega), if_neg (by omega), if_pos rfl,
      if_neg (by omega), if_pos rfl, if_pos rfl]

theorem factoryFresh_retinanetH : FactoryFresh retinanetH := by
  intro h
  constructor
  · rw [refsOf_retinanetH, refsOf_retinanetH, next_retinanetH]
    intro a ha hb
    simp only [List.mem_cons, List.not_mem_nil, or_false] at ha hb
    omega
  · have lo : ∀ r < h.next + 3,
        ((retinanetH (retinanetH h).2).2).store r = ((retinanetH h).2).store r :=
      fun r hr => by
        have := store_lo_retinanetH (retinanetH h).2 r (by rw [next_retinanetH]; omega)
        exact this
    calc (refsOfExpH (retinanetH h).1).map ((retinanetH (retinanetH h).2).2).store
        = (refsOfExpH (retinanetH h).1).map ((retinanetH h).2).store := by
          rw [refsOf_retinanetH]
          simp only [List.map, List.cons.injEq]
          exact ⟨lo _ (by omega), lo _ (by omega), lo _ (by omega), trivial⟩
      _ = [.nlist [], .qlist [1, 2, 3, 1 / 2, 1 / 3],
           .slist ["task.train_data.is_training != None",
                   "task.validation_data.is_training != None"]] :=
          reads_retinanetH h
      _ = (refsOfExpH (retinanetH (retinanetH h).2).1).map
            ((retinanetH (retinanetH h).2).2).store :=
          (reads_retinanetH (retinanetH h).2).symm

theorem factoryFresh_cocoH : FactoryFresh ssd_mobiledet_cocoH := by
  intro h
  constructor
  · rw [refsOf_cocoH, refsOf_cocoH, next_cocoH]
    intro a ha hb
    simp only [List.mem_cons, List.not_mem_nil, or_false] at ha hb
    omega
  · have lo : ∀ r < h.next + 3,
        ((ssd_mobiledet_cocoH (ssd_mobiledet_cocoH h).2).2).store r =
          ((ssd_mobiledet_cocoH h).2).store r :=
      fun r hr => by
        have := store_lo_cocoH (ssd_mobiledet_cocoH h).2 r (by rw [next_cocoH]; omega)
        exact this
    calc (refsOfExpH (ssd_mobiledet_cocoH h).1).map
          ((ssd_mobiledet_cocoH (ssd_mobiledet_cocoH h).2).2).store
        = (refsOfExpH (ssd_mobiledet_cocoH h).1).map
            ((ssd_mobiledet_cocoH h).2).store := by
          rw [refsOf_cocoH]
          simp only [List.map, List.cons.injEq]
          exact ⟨lo _ (by omega), lo _ (by omega), lo _ (by omega), trivial⟩
      _ = [.nlist [640, 640, 3], .qlist [1, 2, 3, 1 / 2, 1 / 3],
           .slist ["task.train_data.is_training != None",
                   "task.validation_data.is_training != None"]] :=
          reads_cocoH h
      _ = (refsOfExpH (ssd_mobiledet_cocoH (ssd_mobiledet_cocoH h).2).1).map
            ((ssd_mobiledet_cocoH (ssd_mobiledet_cocoH h).2).2).store :=
          (reads_cocoH (ssd_mobiledet_cocoH h).2).symm

end SSD

namespace SSD

/-- C1: in `ssd_mobiledet_coco()` the derived scalar `steps_per_epoch` is
claimed to equal `118287 // 256 == 461` and `trainer.train_steps` to equal
`72 * 461 == 33192`; this is false on the code: `118287 // 256 = 462`. -/
theorem c1_claim_false :
    ¬ (steps_per_epoch = 461 ∧
       (ssd_mobiledet_coco ()).trainer.train_steps = 33192) := by
  decide

/-- C1 (amended): in `ssd_mobiledet_coco()` the derived scalar
`steps_per_epoch` equals `118287 // 256`, which is `462`, and the returned
config's `trainer.train_steps` equals `72 * 462`, which is `33264`. -/
theorem c1_steps_per_epoch_train_steps :
    steps_per_epoch = COCO_TRAIN_EXAMPLES / train_batch_size ∧
    steps_per_epoch = 462 ∧
    (ssd_mobiledet_coco ()).trainer.train_steps = 72 * steps_per_epoch ∧
    (ssd_mobiledet_coco ()).trainer.train_steps = 33264 := by
  refine ⟨rfl, by decide, rfl, by decide⟩

/-- C2: the stepwise boundaries are claimed to equal
`[57*461, 67*461] == [26277, 30887]`; this is false on the code, whose
boundaries are `[57*462, 67*462] = [26334, 30954]`. -/
theorem c2_claim_false :
    ¬ ((ssd_mobiledet_coco
          ()).trainer.optimizer_config.learning_rate.stepwise.boundaries =
            [26277, 30887] ∧
        (ssd_mobiledet_coco
          ()).trainer.optimizer_config.learning_rate.stepwise.values =
            [0.32, 0.032, 0.0032]) := by
  decide

/-- C2 (amended): in the config returned by `ssd_mobiledet_coco()`, the
optimizer's stepwise learning-rate boundaries equal
`[57 * steps_per_epoch, 67 * steps_per_epoch] = [26334, 30954]`, and the
learning-rate values equal `[0.32, 0.032, 0.0032]` because
`train_batch_size / 256.0 = 1`. -/
theorem c2_boundaries_values :
    (ssd_mobiledet_coco
      ()).trainer.optimizer_config.learning_rate.stepwise.boundaries =
        [57 * steps_per_epoch, 67 * steps_per_epoch] ∧
    (ssd_mobiledet_coco
      ()).trainer.optimizer_config.learning_rate.stepwise.boundaries =
        [26334, 30954] ∧
    (ssd_mobiledet_coco
      ()).trainer.optimizer_config.learning_rate.stepwise.values =
        [0.32, 0.032, 0.0032] ∧
    (train_batch_size : ℚ) / 256.0 = 1 := by
  refine ⟨rfl, by decide, ?_, ?_⟩
  · show [(0.32 : ℚ) * (train_batch_size : ℚ) / 256.0,
          0.032 * (train_batch_size : ℚ) / 256.0,
          0.0032 * (train_batch_size : ℚ) / 256.0] = _
    norm_num [train_batch_size]
  · norm_num [train_batch_size]

/-- C3: `retinanet()` returns an experiment config whose task has
`train_data.is_training = true` and `validation_data.is_training = false`,
and whose restrictions list is exactly the two documented strings. -/
theorem c3_retinanet_task_and_restrictions :
    (retinanet ()).task.train_data.is_training = true ∧
    (retinanet ()).task.validation_data.is_training = false ∧
    (retinanet ()).restrictions =
      ["task.train_data.is_training != None",
       "task.validation_data.is_training != None"] := by
  exact ⟨rfl, rfl, rfl⟩

/-- C4: in the config returned by `ssd_mobiledet_coco()`,
`trainer.validation_steps` equals `5000 // 8`, which is `625`. -/
theorem c4_validation_steps :
    (ssd_mobiledet_coco ()).trainer.validation_steps =
      COCO_VAL_EXAMPLES / eval_batch_size ∧
    (ssd_mobiledet_coco ()).trainer.validation_steps = 625 := by
  refine ⟨rfl, by decide⟩

end SSD

namespace SSD

theorem independentIn_of_ne (rs1 rs2 : List ℕ) (h : Heap)
    (hne : ∀ x ∈ rs1, ∀ y ∈ rs2, x ≠ y) : IndependentIn rs1 rs2 h :=
  ⟨fun a ha hb => hne a ha a hb rfl,
   fun r hr v => map_write_store_of_ne rs2 r v h
     (fun x hx => (hne r hr x hx).symm),
   fun r hr v => map_write_store_of_ne rs1 r v h
     (fun x hx => hne x hx r hr)⟩

/-- C5: every schema record type defined in ssd.py is constructible with no
arguments, and the no-argument construction carries exactly the documented
default value in every field. -/
theorem c5_default_constructions :
    ({} : TfExampleDecoder) = { regenerate_source_id := false } ∧
    ({} : TfExampleDecoderLabelMap) =
      { regenerate_source_id := false, label_map := "" } ∧
    ({} : DataDecoder) =
      { type := some "simple_decoder",
        simple_decoder := { regenerate_source_id := false },
        label_map_decoder :=
          { regenerate_source_id := false, label_map := "" } } ∧
    ({} : Parser) =
      { match_threshold := 0.5, unmatched_threshold := 0.5,
        aug_rand_hflip := false, aug_scale_min := 1.0, aug_scale_max := 1.0,
        skip_crowd_during_training := true, max_num_instances := 100 } ∧
    ({} : DataConfig) =
      { input_path := "", global_batch_size := 0, is_training := false,
        dtype := "bfloat16",
        decoder :=
          { type := some "simple_decoder",
            simple_decoder := { regenerate_source_id := false },
            label_map_decoder :=
              { regenerate_source_id := false, label_map := "" } },
        parser :=
          { match_threshold := 0.5, unmatched_threshold := 0.5,
            aug_rand_hflip := false, aug_scale_min := 1.0,
            aug_scale_max := 1.0, skip_crowd_during_training := true,
            max_num_instances := 100 },
        shuffle_buffer_size := 10000, file_type := "tfrecord" } ∧
    ({} : SSDAnchor) =
      { min_scale := 0.2, max_scale := 0.95, scales := none,
        aspect_ratios := [1, 2, 3, 1 / 2, 1 / 3],
        interpolated_scale_aspect_ratio := 1.0, anchor_size := 4.0 } ∧
    ({} : Losses) =
      { focal_loss_alpha := 0.25, focal_loss_gamma := 1.5,
        huber_loss_delta := 0.1, box_loss_weight := 50,
        l2_weight_decay := 0.0 } ∧
    ({} : SSDHead) =
      { kernel_size := 3, use_depthwise := true, activation := "relu6",
        use_sync_bn := false, freeze_norm := false,
        add_background_class := true,
        class_prediction_bias_init := -4.6 } ∧
    ({} : DetectionGenerator) =
      { pre_nms_top_k := 5000, pre_nms_score_threshold := 0.05,
        nms_iou_threshold := 0.5, max_num_detections := 100,
        use_batched_nms := false } ∧
    ({} : SSDModel) =
      { num_classes := 0, input_size := [], min_level := 4, num_layers := 6,
        anchor :=
          { min_scale := 0.2, max_scale := 0.95, scales := none,
            aspect_ratios := [1, 2, 3, 1 / 2, 1 / 3],
            interpolated_scale_aspect_ratio := 1.0, anchor_size := 4.0 },
        backbone := { type := some "mobiledet", mobiledet := {} },
        decoder :=
          { type := some "mrfm",
            mrfm := { fml_from_layer := ["4", "5", "", "", "", ""],
                      fml_layer_depth := [-1, -1, 512, 256, 256, 128] } },
        head :=
          { kernel_size := 3, use_depthwise := true, activation := "relu6",
            use_sync_bn := false, freeze_norm := false,
            add_background_class := true,
            class_prediction_bias_init := -4.6 },
        detection_generator :=
          { pre_nms_top_k := 5000, pre_nms_score_threshold := 0.05,
            nms_iou_threshold := 0.5, max_num_detections := 100,
            use_batched_nms := false },
        norm_activation := {} } ∧
    ({} : SSDTask) =
      { model := {},
        train_data :=
          { input_path := "", global_batch_size := 0, is_training := true,
            dtype := "bfloat16", decoder := {}, parser := {},
            shuffle_buffer_size := 10000, file_type := "tfrecord" },
        validation_data :=
          { input_path := "", global_batch_size := 0, is_training := false,
            dtype := "bfloat16", decoder := {}, parser := {},
            shuffle_buffer_size := 10000, file_type := "tfrecord" },
        losses :=
          { focal_loss_alpha := 0.25, focal_loss_gamma := 1.5,
            huber_loss_delta := 0.1, box_loss_weight := 50,
            l2_weight_decay := 0.0 },
        init_checkpoint := none, init_checkpoint_modules := "all",
        annotation_file := none, per_category_metrics := false } :=
  ⟨rfl, rfl, rfl, rfl, rfl, rfl, rfl, rfl, rfl, rfl, rfl⟩

/-- C6: the two factories are registered under the literal keys `'ssd'` and
`'ssd_mobiledet_coco'`; each registered factory is deterministic (every
invocation returns an equal config) and allocation-fresh (two consecutive
invocations own disjoint heap cells whose list payloads read equal, so no
mutable instance is shared across calls). -/
theorem c6_registration_and_freshness :
    experimentRegistry.map Prod.fst = ["ssd", "ssd_mobiledet_coco"] ∧
    registryLookup "ssd" = some retinanet ∧
    registryLookup "ssd_mobiledet_coco" = some ssd_mobiledet_coco ∧
    (∀ u v : Unit, retinanet u = retinanet v ∧
      ssd_mobiledet_coco u = ssd_mobiledet_coco v) ∧
    FactoryFresh retinanetH ∧ FactoryFresh ssd_mobiledet_cocoH :=
  ⟨rfl, rfl, rfl, fun _ _ => ⟨rfl, rfl⟩,
   factoryFresh_retinanetH, factoryFresh_cocoH⟩

/-- C6 witness: determinism and freshness instantiated at the unit argument
and the empty heap. -/
theorem c6_registration_and_freshness_witness :
    (retinanet () = retinanet () ∧
      ssd_mobiledet_coco () = ssd_mobiledet_coco ()) ∧
    ((refsOfExpH (retinanetH h0).1).Disjoint
        (refsOfExpH (retinanetH (retinanetH h0).2).1) ∧
      (refsOfExpH (retinanetH h0).1).map
          ((retinanetH (retinanetH h0).2).2).store =
        (refsOfExpH (retinanetH (retinanetH h0).2).1).map
          ((retinanetH (retinanetH h0).2).2).store) :=
  ⟨c6_registration_and_freshness.2.2.2.1 () (),
   c6_registration_and_freshness.2.2.2.2.1 h0⟩

/-- C7: a `DataDecoder` holds the string discriminator (default
`'simple_decoder'`) plus one fully-constructed payload per known variant,
whatever variant the discriminator selects: under any discriminator value
both payloads are present with their default field values. -/
theorem c7_datadecoder_variant_payloads :
    ({} : DataDecoder).type = some "simple_decoder" ∧
    ∀ t : Option String,
      (DataDecoder.withType t).simple_decoder =
        { regenerate_source_id := false } ∧
      (DataDecoder.withType t).label_map_decoder =
        { regenerate_source_id := false, label_map := "" } :=
  ⟨rfl, fun _ => ⟨rfl, rfl⟩⟩

/-- C7 witness: the payloads are present even when the discriminator selects
the other variant. -/
theorem c7_datadecoder_variant_payloads_witness :
    (DataDecoder.withType (some "label_map_decoder")).simple_decoder =
      { regenerate_source_id := false } ∧
    (DataDecoder.withType (some "label_map_decoder")).label_map_decoder =
      { regenerate_source_id := false, label_map := "" } :=
  c7_datadecoder_variant_payloads.2 (some "label_map_decoder")

/-- C8: constructing two instances of any list-carrying schema record and
mutating a list-valued field reachable from one of them (including list
fields of nested sub-records, such as `SSDAnchor.aspect_ratios` inside
`SSDModel`) leaves the corresponding list of the other instance unchanged:
no list default is shared between sibling instances. -/
theorem c8_no_shared_list_defaults (h : Heap) :
    IndependentIn [(mkSSDAnchorH h).1.aspect_ratios]
      [(mkSSDAnchorH (mkSSDAnchorH h).2).1.aspect_ratios]
      (mkSSDAnchorH (mkSSDAnchorH h).2).2 ∧
    IndependentIn (refsOfModelH (mkSSDModelH [] h).1)
      (refsOfModelH (mkSSDModelH [] (mkSSDModelH [] h).2).1)
      (mkSSDModelH [] (mkSSDModelH [] h).2).2 ∧
    IndependentIn (refsOfTaskH (mkSSDTaskH h).1)
      (refsOfTaskH (mkSSDTaskH (mkSSDTaskH h).2).1)
      (mkSSDTaskH (mkSSDTaskH h).2).2 := by
  have ea1 : (mkSSDAnchorH h).1.aspect_ratios = h.next := rfl
  have ea2 : (mkSSDAnchorH (mkSSDAnchorH h).2).1.aspect_ratios =
      h.next + 1 := rfl
  have em1 : refsOfModelH (mkSSDModelH [] h).1 = [h.next, h.next + 1] := rfl
  have em2 : refsOfModelH (mkSSDModelH [] (mkSSDModelH [] h).2).1 =
      [h.next + 2, h.next + 3] := rfl
  have et1 : refsOfTaskH (mkSSDTaskH h).1 = [h.next, h.next + 1] := rfl
  have et2 : refsOfTaskH (mkSSDTaskH (mkSSDTaskH h).2).1 =
      [h.next + 2, h.next + 3] := rfl
  refine ⟨independentIn_of_ne _ _ _ ?_, independentIn_of_ne _ _ _ ?_,
    independentIn_of_ne _ _ _ ?_⟩
  · intro x hx y hy
    rw [ea1] at hx
    rw [ea2] at hy
    simp only [List.mem_cons, List.not_mem_nil, or_false] at hx hy
    omega
  · intro x hx y hy
    rw [em1] at hx
    rw [em2] at hy
    simp only [List.mem_cons, List.not_mem_nil, or_false] at hx hy
    omega
  · intro x hx y hy
    rw [et1] at hx
    rw [et2] at hy
    simp only [List.mem_cons, List.not_mem_nil, or_false] at hx hy
    omega

/-- C8 witness: independence of the two constructions, instantiated at the
empty heap. -/
theorem c8_no_shared_list_defaults_witness :
    IndependentIn [(mkSSDAnchorH h0).1.aspect_ratios]
      [(mkSSDAnchorH (mkSSDAnchorH h0).2).1.aspect_ratios]
      (mkSSDAnchorH (mkSSDAnchorH h0).2).2 ∧
    IndependentIn (refsOfModelH (mkSSDModelH [] h0).1)
      (refsOfModelH (mkSSDModelH [] (mkSSDModelH [] h0).2).1)
      (mkSSDModelH [] (mkSSDModelH [] h0).2).2 ∧
    IndependentIn (refsOfTaskH (mkSSDTaskH h0).1)
      (refsOfTaskH (mkSSDTaskH (mkSSDTaskH h0).2).1)
      (mkSSDTaskH (mkSSDTaskH h0).2).2 :=
  c8_no_shared_list_defaults h0

/-- C9: the config returned by `ssd_mobiledet_coco()` carries the same two
restriction strings as `retinanet()`'s config, namely exactly
`'task.train_data.is_training != None'` and
`'task.validation_data.is_training != None'`. -/
theorem c9_coco_restrictions_match_retinanet :
    (ssd_mobiledet_coco ()).restrictions = (retinanet ()).restrictions ∧
    (ssd_mobiledet_coco ()).restrictions =
      ["task.train_data.is_training != None",
       "task.validation_data.is_training != None"] :=
  ⟨rfl, rfl⟩

/-- C10: the default task returned by `retinanet()` is a non-runnable
placeholder: its model has `num_classes = 0` and empty `input_size`, and both
data splits have empty `input_path` and `global_batch_size = 0`. -/
theorem c10_retinanet_placeholder :
    (retinanet ()).task.model.num_classes = 0 ∧
    (retinanet ()).task.model.input_size = [] ∧
    (retinanet ()).task.train_data.input_path = "" ∧
    (retinanet ()).task.train_data.global_batch_size = 0 ∧
    (retinanet ()).task.validation_data.input_path = "" ∧
    (retinanet ()).task.validation_data.global_batch_size = 0 :=
  ⟨rfl, rfl, rfl, rfl, rfl, rfl⟩

end SSD
